import Mathlib

/-
Shallow embedding of `src/preview_server.py` (the Wan 2.2 preview server):
the byte-range video responder `_VideoRequestHandler._serve_video`, the
background frame producer `_FrameProducer`, and the MJPEG stream loop
`_CameraRequestHandler._serve_stream`.  Files are modelled as lists of
byte values (`List Nat`), HTTP responses as a record of status, headers
and body, fallible paths (a failing `f.seek`) as `Except`.
-/

namespace PreviewServer

/-- Decoded bytes of the module-level `_JPEG_PLACEHOLDER` base64 constant
(251 bytes, a minimal JPEG). -/
def jpeg_placeholder : List Nat :=
  [255, 216, 255, 224, 0, 16, 74, 70, 73, 70, 0, 1, 1, 0, 0, 1, 0, 1, 0, 0,
   255, 219, 0, 67, 0, 16, 11, 12, 14, 12, 10, 16, 14, 13, 14, 18, 17, 16,
   19, 24, 40, 26, 24, 22, 22, 27, 45, 26, 32, 36, 28, 31, 32, 53, 38, 52,
   39, 40, 45, 49, 52, 54, 58, 66, 57, 62, 62, 66, 70, 72, 54, 58, 64, 64,
   64, 64, 64, 64, 64, 64, 64, 64, 64, 64, 64, 64, 64, 64, 64, 64, 64, 64,
   64, 64, 64, 64, 64, 64, 64, 64, 64, 64, 64, 64, 64, 64, 64, 64, 64, 64,
   64, 64, 64, 64, 64, 64, 64, 64, 64, 64, 64, 64, 64, 64, 64, 64, 64, 64,
   64, 64, 127, 240, 0, 2, 194, 0, 0, 64, 0, 64, 64, 68, 64, 63, 241, 0, 5,
   64, 0, 64, 64, 0, 0, 0, 0, 0, 0, 0, 0, 0, 0, 0, 0, 0, 0, 63, 252, 64, 1,
   65, 0, 16, 0, 0, 0, 0, 0, 0, 0, 0, 0, 0, 0, 0, 0, 0, 0, 15, 252, 64, 1,
   80, 16, 16, 16, 0, 0, 0, 0, 0, 0, 0, 0, 0, 0, 0, 0, 0, 0, 0, 2, 3, 255,
   196, 0, 20, 17, 1, 0, 0, 0, 0, 0, 0, 0, 0, 0, 0, 0, 0, 0, 0, 0, 0, 255,
   218, 0, 12, 3, 1, 0, 2, 17, 3, 17, 0, 63, 0, 159, 255, 217]

/-- An HTTP response as assembled by `_serve_video`: status code, the
headers it sends (`Content-Type`, `Content-Length`, optional
`Content-Range`, `Accept-Ranges`, `Cache-Control`) and the body bytes
written to the socket.  `content_length` is an `Int` because the code
computes `end - start + 1`, which can be negative, and sends `str(length)`
verbatim. -/
structure Response where
  status : Nat
  content_type : String
  content_length : Int
  content_range : Option String
  accept_ranges : String
  cache_control : String
  body : List Nat
deriving DecidableEq, Repr

/-- Consume an exact literal prefix from a character list, returning the
remainder; models the fixed `bytes=` part of the regex
`re.match(r"bytes=(\d+)-(\d*)", header)`, which anchors at the start of
the string and ignores trailing characters. -/
def drop_literal : List Char → List Char → Option (List Char)
  | [], rest => some rest
  | _ :: _, [] => none
  | p :: ps, c :: cs => if c = p then drop_literal ps cs else none

/-- Value of a decimal digit string, as `int()` computes it on the
regex's capture groups (digits modelled as ASCII `0`-`9`). -/
def digits_to_nat (ds : List Char) : Nat :=
  ds.foldl (fun a c => a * 10 + (c.toNat - 48)) 0

/-- The match `re.match(r"bytes=(\d+)-(\d*)", header)` together with the
conversion of its groups: `none` when the pattern does not match at the
start of the header; otherwise the start offset and, when group 2 is
non-empty, the end offset (the code uses `int(m.group(2)) if m.group(2)
else file_size - 1`, so an empty group 2 is reported as `none` here). -/
def match_bytes_range (header : String) : Option (Nat × Option Nat) :=
  match drop_literal "bytes=".toList header.toList with
  | none => none
  | some rest =>
    let ds1 := rest.takeWhile Char.isDigit
    if ds1.isEmpty then none
    else
      match rest.dropWhile Char.isDigit with
      | '-' :: rest2 =>
          let ds2 := rest2.takeWhile Char.isDigit
          some (digits_to_nat ds1,
                if ds2.isEmpty then none else some (digits_to_nat ds2))
      | _ => none

/-- The `start`/`end` pair right after parsing (lines 94-99 of
`preview_server.py`): a regex match yields its groups with an omitted end
defaulting to `file_size - 1`; a present-but-unmatched header falls back
to `(0, file_size - 1)`. -/
def resolved_range (file_size : Int) (header : String) : Int × Int :=
  match match_bytes_range header with
  | some (s, some e) => ((s : Int), (e : Int))
  | some (s, none) => ((s : Int), file_size - 1)
  | none => (0, file_size - 1)

/-- The clamping step `start = min(start, file_size - 1)`;
`end = min(end, file_size - 1)` (lines 100-101): each bound is clamped
independently, from above only. -/
def clamped_range (file_size : Int) (header : String) : Int × Int :=
  let p := resolved_range file_size header
  (min p.1 (file_size - 1), min p.2 (file_size - 1))

/-- The body loop of the 206 branch: `f.seek(start)` followed by
`while remaining > 0: data = f.read(min(chunk, remaining)); if not data:
break; write(data); remaining -= len(data)` with `chunk = 64 * 1024`.
Each iteration that writes consumes at least one byte of `remaining`, so
`remaining` itself bounds the iteration count and serves as fuel. -/
def read_range_fuel (file : List Nat) : Nat → Nat → Nat → List Nat
  | 0, _, _ => []
  | fuel + 1, pos, remaining =>
    if remaining = 0 then []
    else
      let data := (file.drop pos).take (min 65536 remaining)
      if data.isEmpty then []
      else data ++ read_range_fuel file fuel (pos + data.length) (remaining - data.length)

/-- Bytes written by the 206 body loop starting at `pos` with `remaining`
bytes requested. -/
def read_range (file : List Nat) (pos remaining : Nat) : List Nat :=
  read_range_fuel file remaining pos remaining

/-- The body loop of the 200 branch:
`for chunk in iter(lambda: f.read(64 * 1024), b""): write(chunk)`.
Each iteration advances the position by at least one byte, so the file
length bounds the iteration count and serves as fuel. -/
def read_whole_fuel (file : List Nat) : Nat → Nat → List Nat
  | 0, _ => []
  | fuel + 1, pos =>
    let data := (file.drop pos).take 65536
    if data.isEmpty then []
    else data ++ read_whole_fuel file fuel (pos + data.length)

/-- Bytes written by the 200 branch's whole-file loop. -/
def read_whole (file : List Nat) : List Nat :=
  read_whole_fuel file file.length 0

/-- The truthy-`Range` branch of `_VideoRequestHandler._serve_video`
(lines 94-119): parse/fall back, clamp, send the 206 headers, then
`f.seek(start)` and the chunked body loop.  The one fallible operation is
`f.seek(start)`: Python raises `OSError` on a negative offset, which
happens exactly when `file_size - 1` is negative, i.e. on an empty file;
that path is an `Except.error` (in the code the headers already went out,
so the response is aborted, not well-formed).  The 404 branch for a
missing file is outside this model (the file's bytes are given). -/
def range_response (file : List Nat) (header : String) : Except String Response :=
  if (clamped_range (file.length : Int) header).1 < 0 then
    Except.error "f.seek raises OSError: negative seek position"
  else
    Except.ok {
      status := 206
      content_type := "video/mp4"
      content_length := (clamped_range (file.length : Int) header).2
                          - (clamped_range (file.length : Int) header).1 + 1
      content_range := some ("bytes "
                               ++ toString (clamped_range (file.length : Int) header).1
                               ++ "-" ++ toString (clamped_range (file.length : Int) header).2
                               ++ "/" ++ toString ((file.length : Int)))
      accept_ranges := "bytes"
      cache_control := "no-store"
      body := read_range file (clamped_range (file.length : Int) header).1.toNat
                ((clamped_range (file.length : Int) header).2
                  - (clamped_range (file.length : Int) header).1 + 1).toNat }

/-- The `else` branch of `if range_header:`: the whole-file 200 response. -/
def whole_file_response (file : List Nat) : Response :=
  { status := 200
    content_type := "video/mp4"
    content_length := (file.length : Int)
    content_range := none
    accept_ranges := "bytes"
    cache_control := "no-store"
    body := read_whole file }

/-- The dispatch `if range_header:` at line 93: a missing header AND a
present-but-empty header string are both falsy in Python, so both take
the whole-file 200 branch; any non-empty header value takes the 206
branch. -/
def serve_video (file : List Nat) (range_header : Option String) : Except String Response :=
  match range_header with
  | some header =>
      if header = "" then Except.ok (whole_file_response file)
      else range_response file header
  | none => Except.ok (whole_file_response file)

/-- State of a `_FrameProducer`: its coerced `fps`, the shared
`latest_frame` slot, whether `_stop_event` is set, how many times the
supplier's `close()` was invoked, and how many `close()` failures were
logged (the `except Exception: logging.exception(...)` path). -/
structure FrameProducerState where
  fps : ℚ
  latest_frame : List Nat
  stop_requested : Bool
  close_calls : Nat
  logged_close_failures : Nat
deriving DecidableEq, Repr

/-- `_FrameProducer.__init__`: `self.fps = max(fps, 0.1)` and
`self.latest_frame = _JPEG_PLACEHOLDER`, before the capture thread runs
a single cycle.  The rate is modelled over `ℚ`. -/
def frame_producer_init (fps : ℚ) : FrameProducerState :=
  { fps := max fps (1/10)
    latest_frame := jpeg_placeholder
    stop_requested := false
    close_calls := 0
    logged_close_failures := 0 }

/-- The per-cycle delay `delay = 1.0 / self.fps` computed in `_run`. -/
def run_delay (s : FrameProducerState) : ℚ := 1 / s.fps

/-- One iteration of `_run`'s loop body: `frame = self.frame_supplier()`,
then `if frame: self.latest_frame = frame`.  A `None` return or an empty
bytes object is falsy and leaves `latest_frame` unchanged. -/
def run_cycle (s : FrameProducerState) (frame : Option (List Nat)) : FrameProducerState :=
  match frame with
  | some f => if f.isEmpty then s else { s with latest_frame := f }
  | none => s

/-- `_FrameProducer.get_latest`. -/
def get_latest (s : FrameProducerState) : List Nat := s.latest_frame

/-- `_FrameProducer.stop`: sets the stop event, then — whenever the
supplier has a `close` attribute — invokes `close()` inside
`try/except Exception`, logging (never propagating) a failure, and joins
the thread.  There is no already-stopped guard, so each call that finds a
`close` attribute invokes it again. -/
def producer_stop (s : FrameProducerState) (has_close close_raises : Bool) : FrameProducerState :=
  let s1 := { s with stop_requested := true }
  if has_close then
    { s1 with
      close_calls := s1.close_calls + 1
      logged_close_failures := s1.logged_close_failures + (if close_raises then 1 else 0) }
  else s1

/-- States a `_FrameProducer` can be in: freshly constructed, or the
result of one more capture cycle or one more `stop()` call. -/
inductive ProducerReachable : FrameProducerState → Prop
  | init (fps : ℚ) : ProducerReachable (frame_producer_init fps)
  | cycle {s} (frame : Option (List Nat)) :
      ProducerReachable s → ProducerReachable (run_cycle s frame)
  | stop {s} (has_close close_raises : Bool) :
      ProducerReachable s → ProducerReachable (producer_stop s has_close close_raises)

/-- Transport-level exceptions a socket write can raise in
`_serve_stream`'s loop. -/
inductive WriteFault where
  | broken_pipe
  | conn_reset
  | conn_aborted
  | timed_out
  | other_os_error
deriving DecidableEq, Repr

/-- Which faults the handler's
`except (BrokenPipeError, ConnectionResetError): return` clause catches. -/
def caught_by_stream_handler : WriteFault → Bool
  | .broken_pipe => true
  | .conn_reset => true
  | _ => false

/-- The body loop of `_CameraRequestHandler._serve_stream` (lines
172-187), driven by a finite observed trace of iterations.  Each trace
entry is the frame `get_latest()` returned for that iteration, paired
with the fault (if any) the socket writes raised during that iteration's
part.  An empty frame skips the write (`if frame:`); a raised fault ends
the loop — silently (`Except.ok`) when the `except` clause catches it,
otherwise propagating (`Except.error`).  An exhausted trace means the
connection is still being served (`Except.ok`). -/
def serve_stream_loop : List (List Nat × Option WriteFault) → Except WriteFault Unit
  | [] => Except.ok ()
  | (frame, fault) :: rest =>
      if frame.isEmpty then serve_stream_loop rest
      else
        match fault with
        | none => serve_stream_loop rest
        | some e =>
            if caught_by_stream_handler e then Except.ok () else Except.error e

theorem take_chunk {α : Type} (xs : List α) (n t : Nat) (h : t ≤ n) :
    xs.take n = xs.take t ++ (xs.drop (xs.take t).length).take (n - (xs.take t).length) := by
  rcases le_or_lt t xs.length with hle | hlt
  · rw [List.length_take, Nat.min_eq_left hle]
    have hadd := List.take_add xs t (n - t)
    rw [Nat.add_sub_cancel' h] at hadd
    exact hadd
  · rw [List.length_take, Nat.min_eq_right (Nat.le_of_lt hlt)]
    rw [List.take_of_length_le (Nat.le_of_lt hlt), List.drop_length]
    rw [List.take_nil, List.append_nil]
    exact List.take_of_length_le (le_trans (Nat.le_of_lt hlt) h)

theorem take_then_drop {α : Type} (xs : List α) (t : Nat) :
    xs.take t ++ xs.drop (xs.take t).length = xs := by
  rcases le_or_lt t xs.length with hle | hlt
  · rw [List.length_take, Nat.min_eq_left hle, List.take_append_drop]
  · rw [List.length_take, Nat.min_eq_right (Nat.le_of_lt hlt)]
    rw [List.take_of_length_le (Nat.le_of_lt hlt), List.drop_length, List.append_nil]

theorem read_range_fuel_spec (file : List Nat) :
    ∀ fuel pos remaining, remaining ≤ fuel →
      read_range_fuel file fuel pos remaining = (file.drop pos).take remaining := by
  intro fuel
  induction fuel with
  | zero =>
      intro pos remaining h
      have : remaining = 0 := Nat.le_zero.mp h
      subst this
      simp [read_range_fuel]
  | succ fuel ih =>
      intro pos remaining h
      rw [read_range_fuel]
      by_cases hr : remaining = 0
      · subst hr; simp
      · simp only [hr, if_false]
        set xs := file.drop pos with hxs
        set data := xs.take (min 65536 remaining) with hdata
        by_cases hd : data.isEmpty
        · simp only [hd, if_true]
          have hdnil : data = [] := List.isEmpty_iff.mp hd
          have hmin : min 65536 remaining ≠ 0 := by
            have : remaining ≠ 0 := hr
            omega
          have hxsnil : xs = [] := by
            rcases List.take_eq_nil_iff.mp hdnil with h1 | h1
            · exact absurd h1 hmin
            · exact h1
          rw [hxsnil, List.take_nil]
        · simp only [hd, if_false]
          have hdlen : 1 ≤ data.length := by
            have : data ≠ [] := fun hnil => hd (List.isEmpty_iff.mpr hnil)
            exact Nat.one_le_iff_ne_zero.mpr (fun h0 => this (List.eq_nil_of_length_eq_zero h0))
          have hrec : remaining - data.length ≤ fuel := by omega
          rw [ih (pos + data.length) (remaining - data.length) hrec]
          have hdrop : file.drop (pos + data.length) = xs.drop data.length := by
            rw [hxs, List.drop_drop, Nat.add_comm]
          rw [hdrop, hdata]
          exact (take_chunk xs remaining (min 65536 remaining) (Nat.min_le_right _ _)).symm

theorem read_range_spec (file : List Nat) (pos remaining : Nat) :
    read_range file pos remaining = (file.drop pos).take remaining :=
  read_range_fuel_spec file remaining pos remaining (Nat.le_refl _)

theorem read_whole_fuel_spec (file : List Nat) :
    ∀ fuel pos, file.length - pos ≤ fuel →
      read_whole_fuel file fuel pos = file.drop pos := by
  intro fuel
  induction fuel with
  | zero =>
      intro pos h
      have hpos : file.length ≤ pos := by omega
      rw [read_whole_fuel, List.drop_eq_nil_of_le hpos]
  | succ fuel ih =>
      intro pos h
      rw [read_whole_fuel]
      set xs := file.drop pos with hxs
      set data := xs.take 65536 with hdata
      by_cases hd : data.isEmpty
      · simp only [hd, if_true]
        have hdnil : data = [] := List.isEmpty_iff.mp hd
        have hxsnil : xs = [] := by
          rcases List.take_eq_nil_iff.mp hdnil with h1 | h1
          · exact absurd h1 (by omega)
          · exact h1
        exact hxsnil.symm
      · simp only [hd, if_false]
        have hdlen : 1 ≤ data.length := by
          have : data ≠ [] := fun hnil => hd (List.isEmpty_iff.mpr hnil)
          exact Nat.one_le_iff_ne_zero.mpr (fun h0 => this (List.eq_nil_of_length_eq_zero h0))
        have hxslen : data.length ≤ xs.length := by
          rw [hdata]; exact (List.length_take _ _).le.trans (Nat.min_le_right _ _)
        have hxs_len : xs.length = file.length - pos := by
          rw [hxs, List.length_drop]
        have hrec : file.length - (pos + data.length) ≤ fuel := by omega
        rw [ih (pos + data.length) hrec]
        have hdrop : file.drop (pos + data.length) = xs.drop data.length := by
          rw [hxs, List.drop_drop, Nat.add_comm]
        rw [hdrop, hdata]
        exact take_then_drop xs 65536

theorem read_whole_spec (file : List Nat) : read_whole file = file := by
  rw [read_whole, read_whole_fuel_spec file file.length 0 (by omega), List.drop_zero]

theorem drop_literal_self_append (ps cs : List Char) :
    drop_literal ps (ps ++ cs) = some cs := by
  induction ps with
  | nil => rfl
  | cons p ps ih => simp [drop_literal, ih]

theorem match_bytes_range_dash (s : String) :
    match_bytes_range ("bytes=-" ++ s) = none := by
  have h1 : ("bytes=-" ++ s).toList = "bytes=".toList ++ ('-' :: s.toList) := rfl
  rw [match_bytes_range, h1, drop_literal_self_append]
  simp only [List.takeWhile_cons]
  rw [show Char.isDigit '-' = false from rfl]
  simp

theorem bytes_dash_ne_empty (s : String) : ("bytes=-" ++ s) ≠ "" := by
  intro h
  have h2 : ('b' :: 'y' :: 't' :: 'e' :: 's' :: '=' :: '-' :: s.toList) = ([] : List Char) :=
    congrArg String.toList h
  simp at h2

theorem resolved_range_fst_nonneg (L : Int) (header : String) :
    0 ≤ (resolved_range L header).1 := by
  unfold resolved_range
  rcases match_bytes_range header with _ | ⟨s, _ | e⟩ <;> simp

theorem resolved_range_snd_nonneg (L : Int) (header : String) (hL : 1 ≤ L) :
    0 ≤ (resolved_range L header).2 := by
  unfold resolved_range
  rcases match_bytes_range header with _ | ⟨s, _ | e⟩ <;> simp <;> omega

theorem clamped_range_bounds (file : List Nat) (header : String) (hne : file ≠ []) :
    0 ≤ (clamped_range (file.length : Int) header).1 ∧
    (clamped_range (file.length : Int) header).1 ≤ (file.length : Int) - 1 ∧
    0 ≤ (clamped_range (file.length : Int) header).2 ∧
    (clamped_range (file.length : Int) header).2 ≤ (file.length : Int) - 1 := by
  have hL : 1 ≤ (file.length : Int) := by
    have := List.length_pos.mpr hne
    omega
  have h1 := resolved_range_fst_nonneg (file.length : Int) header
  have h2 := resolved_range_snd_nonneg (file.length : Int) header hL
  unfold clamped_range
  refine ⟨le_min h1 (by omega), min_le_right _ _, le_min h2 (by omega), min_le_right _ _⟩

theorem serve_video_some_eq (file : List Nat) (header : String) (hne : file ≠ [])
    (hhdr : header ≠ "") :
    serve_video file (some header) = Except.ok {
      status := 206
      content_type := "video/mp4"
      content_length := (clamped_range (file.length : Int) header).2
                          - (clamped_range (file.length : Int) header).1 + 1
      content_range := some ("bytes "
                               ++ toString (clamped_range (file.length : Int) header).1
                               ++ "-" ++ toString (clamped_range (file.length : Int) header).2
                               ++ "/" ++ toString ((file.length : Int)))
      accept_ranges := "bytes"
      cache_control := "no-store"
      body := (file.drop (clamped_range (file.length : Int) header).1.toNat).take
                ((clamped_range (file.length : Int) header).2
                  - (clamped_range (file.length : Int) header).1 + 1).toNat } := by
  obtain ⟨h1, h2, h3, h4⟩ := clamped_range_bounds file header hne
  rw [serve_video, if_neg hhdr, range_response, if_neg (by omega), read_range_spec]

theorem serve_video_no_match (file : List Nat) (header : String)
    (hne : file ≠ []) (hhdr : header ≠ "") (hnm : match_bytes_range header = none) :
    serve_video file (some header) = Except.ok {
      status := 206
      content_type := "video/mp4"
      content_length := (file.length : Int)
      content_range := some ("bytes " ++ toString (0 : Int) ++ "-"
                               ++ toString ((file.length : Int) - 1)
                               ++ "/" ++ toString ((file.length : Int)))
      accept_ranges := "bytes"
      cache_control := "no-store"
      body := file } := by
  have hL : 1 ≤ (file.length : Int) := by
    have := List.length_pos.mpr hne
    omega
  have hcl : clamped_range (file.length : Int) header = (0, (file.length : Int) - 1) := by
    rw [clamped_range, resolved_range, hnm]
    have ha : min (0 : Int) ((file.length : Int) - 1) = 0 := min_eq_left (by omega)
    have hb : min ((file.length : Int) - 1) ((file.length : Int) - 1)
        = (file.length : Int) - 1 := min_self _
    simp only [ha, hb]
  rw [serve_video_some_eq file header hne hhdr, hcl]
  simp [Int.sub_add_cancel]

theorem clamped_range_eq (L : Int) (header : String) :
    clamped_range L header
      = (min (resolved_range L header).1 (L - 1),
         min (resolved_range L header).2 (L - 1)) := rfl

/-- C1: for every file and every range request whose resolved bounds satisfy
`start ≤ end < size`, `_serve_video` answers with status 206, a body of
exactly `end - start + 1` bytes that is byte-identical to the file's bytes
at offsets `start` through `end` (ascending order, no gaps or duplicates),
`Content-Length` equal to `end - start + 1`, and `Content-Range` equal to
`bytes <start>-<end>/<size>`. -/
theorem range_request_exact_span (file : List Nat) (header : String) (s e : Int)
    (hhdr : header ≠ "")
    (hres : resolved_range (file.length : Int) header = (s, e))
    (hse : s ≤ e) (he : e < (file.length : Int)) :
    ∃ r, serve_video file (some header) = Except.ok r ∧
      r.status = 206 ∧
      r.content_length = e - s + 1 ∧
      r.content_range = some ("bytes " ++ toString s ++ "-" ++ toString e
                                ++ "/" ++ toString ((file.length : Int))) ∧
      (r.body.length : Int) = e - s + 1 ∧
      (∀ i : Nat, (i : Int) < e - s + 1 → r.body[i]? = file[s.toNat + i]?) := by
  have hs : 0 ≤ s := by
    have h0 := resolved_range_fst_nonneg (file.length : Int) header
    rw [hres] at h0
    exact h0
  have hne : file ≠ [] := by
    intro hnil
    rw [hnil] at he
    simp at he
    omega
  have hcl : clamped_range (file.length : Int) header = (s, e) := by
    rw [clamped_range_eq, hres]
    rw [min_eq_left (by omega : s ≤ (file.length : Int) - 1),
        min_eq_left (by omega : e ≤ (file.length : Int) - 1)]
  refine ⟨{ status := 206
            content_type := "video/mp4"
            content_length := e - s + 1
            content_range := some ("bytes " ++ toString s ++ "-" ++ toString e
                                     ++ "/" ++ toString ((file.length : Int)))
            accept_ranges := "bytes"
            cache_control := "no-store"
            body := (file.drop s.toNat).take (e - s + 1).toNat },
          ?_, rfl, rfl, rfl, ?_, ?_⟩
  · rw [serve_video_some_eq file header hne hhdr, hcl]
  · show (((file.drop s.toNat).take (e - s + 1).toNat).length : Int) = e - s + 1
    simp only [List.length_take, List.length_drop]
    omega
  · intro i hi
    show ((file.drop s.toNat).take (e - s + 1).toNat)[i]? = file[s.toNat + i]?
    have hin : i < (e - s + 1).toNat := by omega
    rw [List.getElem?_take, if_pos hin, List.getElem?_drop]

/-- C1 witness: the valid range `bytes=1-3` on a five-byte file. -/
theorem range_request_exact_span_witness :
    ("bytes=1-3" : String) ≠ "" ∧
    resolved_range (([10, 11, 12, 13, 14] : List Nat).length : Int) "bytes=1-3" = (1, 3) ∧
    (1 : Int) ≤ 3 ∧ (3 : Int) < (([10, 11, 12, 13, 14] : List Nat).length : Int) ∧
    (∃ r, serve_video [10, 11, 12, 13, 14] (some "bytes=1-3") = Except.ok r ∧
      r.status = 206 ∧
      r.content_length = 3 - 1 + 1 ∧
      r.content_range = some ("bytes " ++ toString (1 : Int) ++ "-" ++ toString (3 : Int)
                                ++ "/" ++ toString ((([10, 11, 12, 13, 14] : List Nat).length : Int))) ∧
      (r.body.length : Int) = 3 - 1 + 1 ∧
      (∀ i : Nat, (i : Int) < 3 - 1 + 1 →
        r.body[i]? = [10, 11, 12, 13, 14][(1 : Int).toNat + i]?)) :=
  ⟨by decide, by decide, by decide, by decide,
   range_request_exact_span [10, 11, 12, 13, 14] "bytes=1-3" 1 3 (by decide) (by decide)
     (by decide) (by decide)⟩

/-- C2 counterexample: on an empty file the clamped bounds are `(-1, -1)`,
violating `0 ≤ start`, and the response crashes at `f.seek(-1)` instead of
being well-formed; on a ten-byte file the request `bytes=5-2` clamps to
`(5, 2)`, violating `start ≤ end`. -/
theorem clamp_invariant_cex :
    clamped_range ((([] : List Nat).length : Nat) : Int) "bytes=0-" = (-1, -1) ∧
    serve_video ([] : List Nat) (some "bytes=0-")
      = Except.error "f.seek raises OSError: negative seek position" ∧
    clamped_range (([7, 7, 7, 7, 7, 7, 7, 7, 7, 7] : List Nat).length : Int) "bytes=5-2"
      = (5, 2) ∧
    ¬ ((5 : Int) ≤ 2) :=
  ⟨by decide, rfl, by decide, by decide⟩

/-- C2 (amended): for every range request against a NON-EMPTY file, each
clamped bound lies in `[0, size-1]`; `start ≤ end` additionally holds
whenever the resolved (pre-clamp) bounds satisfy it, but not in general,
since the bounds are clamped independently; a resolved start at or beyond
`size` is clamped to `size-1`; and the response is well-formed (no crash).
On an empty file the clamped bounds are `-1` and the body write crashes. -/
theorem clamp_invariant_amended (file : List Nat) (header : String) (hne : file ≠ []) :
    0 ≤ (clamped_range (file.length : Int) header).1 ∧
    (clamped_range (file.length : Int) header).1 ≤ (file.length : Int) - 1 ∧
    0 ≤ (clamped_range (file.length : Int) header).2 ∧
    (clamped_range (file.length : Int) header).2 ≤ (file.length : Int) - 1 ∧
    ((resolved_range (file.length : Int) header).1
        ≤ (resolved_range (file.length : Int) header).2 →
      (clamped_range (file.length : Int) header).1
        ≤ (clamped_range (file.length : Int) header).2) ∧
    ((file.length : Int) ≤ (resolved_range (file.length : Int) header).1 →
      (clamped_range (file.length : Int) header).1 = (file.length : Int) - 1) ∧
    ∃ r, serve_video file (some header) = Except.ok r := by
  obtain ⟨h1, h2, h3, h4⟩ := clamped_range_bounds file header hne
  refine ⟨h1, h2, h3, h4, ?_, ?_, ?_⟩
  · intro hle
    rw [clamped_range_eq]
    exact min_le_min hle (le_refl _)
  · intro hge
    rw [clamped_range_eq]
    exact min_eq_right (by omega)
  · by_cases hh : header = ""
    · exact ⟨whole_file_response file, by rw [serve_video, if_pos hh]⟩
    · exact ⟨_, serve_video_some_eq file header hne hh⟩

/-- C2 witness: `bytes=9-` (start at size) on a three-byte file. -/
theorem clamp_invariant_amended_witness :
    ([1, 2, 3] : List Nat) ≠ [] ∧
    (0 ≤ (clamped_range (([1, 2, 3] : List Nat).length : Int) "bytes=9-").1 ∧
     (clamped_range (([1, 2, 3] : List Nat).length : Int) "bytes=9-").1
       ≤ (([1, 2, 3] : List Nat).length : Int) - 1 ∧
     0 ≤ (clamped_range (([1, 2, 3] : List Nat).length : Int) "bytes=9-").2 ∧
     (clamped_range (([1, 2, 3] : List Nat).length : Int) "bytes=9-").2
       ≤ (([1, 2, 3] : List Nat).length : Int) - 1 ∧
     ((resolved_range (([1, 2, 3] : List Nat).length : Int) "bytes=9-").1
         ≤ (resolved_range (([1, 2, 3] : List Nat).length : Int) "bytes=9-").2 →
       (clamped_range (([1, 2, 3] : List Nat).length : Int) "bytes=9-").1
         ≤ (clamped_range (([1, 2, 3] : List Nat).length : Int) "bytes=9-").2) ∧
     ((([1, 2, 3] : List Nat).length : Int)
         ≤ (resolved_range (([1, 2, 3] : List Nat).length : Int) "bytes=9-").1 →
       (clamped_range (([1, 2, 3] : List Nat).length : Int) "bytes=9-").1
         = (([1, 2, 3] : List Nat).length : Int) - 1) ∧
     ∃ r, serve_video [1, 2, 3] (some "bytes=9-") = Except.ok r) :=
  ⟨by decide, clamp_invariant_amended [1, 2, 3] "bytes=9-" (by decide)⟩

/-- C3 counterexample: the malformed header `bytes=abc` yields status 206
(with a `Content-Range` header), not the status 200 the claim states — the
body is still the whole file. -/
theorem malformed_range_cex :
    serve_video [1, 2, 3] (some "bytes=abc") = Except.ok
      { status := 206, content_type := "video/mp4", content_length := 3,
        content_range := some "bytes 0-2/3", accept_ranges := "bytes",
        cache_control := "no-store", body := [1, 2, 3] } ∧
    (206 : Nat) ≠ 200 :=
  ⟨rfl, by decide⟩

/-- C3 (amended): for every NON-EMPTY file, a present `Range` header that
does not match `bytes=<start>-[<end>]` falls back to the whole file — the
body is the entire file and no error status is produced — but with
partial-content status 206 and `Content-Range: bytes 0-<size-1>/<size>`,
not status 200. -/
theorem malformed_range_amended (file : List Nat) (header : String)
    (hne : file ≠ []) (hhdr : header ≠ "") (hnm : match_bytes_range header = none) :
    serve_video file (some header) = Except.ok
      { status := 206
        content_type := "video/mp4"
        content_length := (file.length : Int)
        content_range := some ("bytes " ++ toString (0 : Int) ++ "-"
                                 ++ toString ((file.length : Int) - 1)
                                 ++ "/" ++ toString ((file.length : Int)))
        accept_ranges := "bytes"
        cache_control := "no-store"
        body := file } :=
  serve_video_no_match file header hne hhdr hnm

/-- C3 witness: the non-numeric header `bytes=abc` on a three-byte file. -/
theorem malformed_range_amended_witness :
    ([1, 2, 3] : List Nat) ≠ [] ∧
    ("bytes=abc" : String) ≠ "" ∧
    match_bytes_range "bytes=abc" = none ∧
    serve_video [1, 2, 3] (some "bytes=abc") = Except.ok
      { status := 206
        content_type := "video/mp4"
        content_length := (([1, 2, 3] : List Nat).length : Int)
        content_range := some ("bytes " ++ toString (0 : Int) ++ "-"
                                 ++ toString ((([1, 2, 3] : List Nat).length : Int) - 1)
                                 ++ "/" ++ toString ((([1, 2, 3] : List Nat).length : Int)))
        accept_ranges := "bytes"
        cache_control := "no-store"
        body := [1, 2, 3] } :=
  ⟨by decide, by decide, by decide,
   malformed_range_amended [1, 2, 3] "bytes=abc" (by decide) (by decide) (by decide)⟩

/-- C4 counterexample: on a ten-byte file, `bytes=5-2` (clamped start 5 >
clamped end 2) produces an EMPTY body with `Content-Length: -2` — not the
single-byte body `[file[0]]` the claim states. -/
theorem inverted_range_cex :
    serve_video [100, 101, 102, 103, 104, 105, 106, 107, 108, 109] (some "bytes=5-2")
      = Except.ok
        { status := 206, content_type := "video/mp4", content_length := -2,
          content_range := some "bytes 5-2/10", accept_ranges := "bytes",
          cache_control := "no-store", body := [] } ∧
    ([] : List Nat) ≠ [100] :=
  ⟨rfl, by decide⟩

/-- C4 (amended): for every NON-EMPTY file, when independent clamping
yields `start > end` the responder sends status 206 with
`Content-Length = end - start + 1 ≤ 0` and an empty body (zero bytes, not
byte 0): it does not crash, but it serves no bytes at all. -/
theorem inverted_range_amended (file : List Nat) (header : String) (hne : file ≠ [])
    (hlt : (clamped_range (file.length : Int) header).2
             < (clamped_range (file.length : Int) header).1) :
    ∃ r, serve_video file (some header) = Except.ok r ∧
      r.status = 206 ∧
      r.content_length = (clamped_range (file.length : Int) header).2
          - (clamped_range (file.length : Int) header).1 + 1 ∧
      r.content_length ≤ 0 ∧
      r.body = [] := by
  have hh : header ≠ "" := by
    intro h
    subst h
    have hL : 1 ≤ (file.length : Int) := by
      have := List.length_pos.mpr hne
      omega
    have hres : resolved_range (file.length : Int) ""
        = (0, (file.length : Int) - 1) := rfl
    rw [clamped_range_eq, hres] at hlt
    dsimp only at hlt
    rw [min_self, min_eq_left (by omega : (0 : Int) ≤ (file.length : Int) - 1)] at hlt
    omega
  refine ⟨_, serve_video_some_eq file header hne hh, rfl, rfl, ?_, ?_⟩
  · show (clamped_range (file.length : Int) header).2
        - (clamped_range (file.length : Int) header).1 + 1 ≤ 0
    omega
  · show (file.drop (clamped_range (file.length : Int) header).1.toNat).take
        ((clamped_range (file.length : Int) header).2
          - (clamped_range (file.length : Int) header).1 + 1).toNat = []
    have h0 : ((clamped_range (file.length : Int) header).2
        - (clamped_range (file.length : Int) header).1 + 1).toNat = 0 := by omega
    rw [h0, List.take_zero]

/-- C4 witness: `bytes=5-2` on a ten-byte file. -/
theorem inverted_range_amended_witness :
    ([100, 101, 102, 103, 104, 105, 106, 107, 108, 109] : List Nat) ≠ [] ∧
    (clamped_range (([100, 101, 102, 103, 104, 105, 106, 107, 108, 109] : List Nat).length : Int)
        "bytes=5-2").2
      < (clamped_range (([100, 101, 102, 103, 104, 105, 106, 107, 108, 109] : List Nat).length : Int)
        "bytes=5-2").1 ∧
    (∃ r, serve_video [100, 101, 102, 103, 104, 105, 106, 107, 108, 109] (some "bytes=5-2")
        = Except.ok r ∧
      r.status = 206 ∧
      r.content_length =
        (clamped_range (([100, 101, 102, 103, 104, 105, 106, 107, 108, 109] : List Nat).length : Int)
            "bytes=5-2").2
          - (clamped_range (([100, 101, 102, 103, 104, 105, 106, 107, 108, 109] : List Nat).length : Int)
            "bytes=5-2").1 + 1 ∧
      r.content_length ≤ 0 ∧
      r.body = []) :=
  ⟨by decide, by decide,
   inverted_range_amended [100, 101, 102, 103, 104, 105, 106, 107, 108, 109] "bytes=5-2"
     (by decide) (by decide)⟩
set_option maxRecDepth 4000 in
/-- C5: in every reachable `_FrameProducer` state the `latest_frame` is a
non-empty buffer: it starts as the built-in placeholder (a well-formed
JPEG, starting with the SOI marker `FF D8` and ending with EOI `FF D9`),
a capture cycle replaces it only when the supplier yields a non-empty
frame, a `None` or empty pull leaves it unchanged, and `get_latest`
returns it — so a viewer connecting before the first real frame still
gets a valid placeholder image. -/
theorem latest_frame_invariant :
    (∀ fps : ℚ, (frame_producer_init fps).latest_frame = jpeg_placeholder) ∧
    jpeg_placeholder ≠ [] ∧
    jpeg_placeholder.take 2 = [255, 216] ∧
    jpeg_placeholder.drop (jpeg_placeholder.length - 2) = [255, 217] ∧
    (∀ s, ProducerReachable s → s.latest_frame ≠ []) ∧
    (∀ s f, f ≠ [] → (run_cycle s (some f)).latest_frame = f) ∧
    (∀ s, run_cycle s none = s) ∧
    (∀ s, run_cycle s (some []) = s) ∧
    (∀ s, get_latest s = s.latest_frame) := by
  refine ⟨fun _ => rfl, by decide, by decide, by decide, ?_, ?_,
          fun _ => rfl, fun _ => rfl, fun _ => rfl⟩
  · intro s hs
    induction hs with
    | init fps =>
        show jpeg_placeholder ≠ []
        decide
    | cycle frame h ih =>
        rcases frame with _ | f
        · exact ih
        · by_cases hf : f.isEmpty
          · simpa [run_cycle, hf] using ih
          · have hf' : f ≠ [] := fun hnil => hf (by rw [hnil]; rfl)
            simpa [run_cycle, hf] using hf'
    | stop has_close close_raises h ih =>
        by_cases hhc : has_close <;> simpa [producer_stop, hhc] using ih
  · intro s f hf
    have hf' : f.isEmpty = false := by
      rcases f with _ | _
      · exact absurd rfl hf
      · rfl
    simp [run_cycle, hf']

/-- C5 witness: the fresh producer state holds the non-empty placeholder,
a 1-byte capture replaces it, an empty capture leaves it unchanged. -/
theorem latest_frame_invariant_witness :
    (frame_producer_init 24).latest_frame = jpeg_placeholder ∧
    (frame_producer_init 24).latest_frame ≠ [] ∧
    (run_cycle (frame_producer_init 24) (some [9])).latest_frame = [9] ∧
    run_cycle (frame_producer_init 24) none = frame_producer_init 24 ∧
    run_cycle (frame_producer_init 24) (some []) = frame_producer_init 24 ∧
    get_latest (frame_producer_init 24) = (frame_producer_init 24).latest_frame :=
  ⟨latest_frame_invariant.1 24,
   latest_frame_invariant.2.2.2.2.1 (frame_producer_init 24) (ProducerReachable.init 24),
   latest_frame_invariant.2.2.2.2.2.1 (frame_producer_init 24) [9] (by decide),
   latest_frame_invariant.2.2.2.2.2.2.1 (frame_producer_init 24),
   latest_frame_invariant.2.2.2.2.2.2.2.1 (frame_producer_init 24),
   latest_frame_invariant.2.2.2.2.2.2.2.2 (frame_producer_init 24)⟩

/-- C6 counterexample: two `stop()` calls on a producer whose supplier has
a `close` attribute invoke `close()` twice — the code has no
already-stopped guard — refuting "`close()` is invoked at most once across
all `stop()` invocations". -/
theorem stop_close_twice_cex :
    (producer_stop (producer_stop (frame_producer_init 24) true false) true false).close_calls
      = 2 ∧
    ¬ (producer_stop (producer_stop (frame_producer_init 24) true false) true false).close_calls
      ≤ 1 :=
  ⟨rfl, by decide⟩

/-- C6 (amended): a second `stop()` call on an already-stopped producer is
not an error: it leaves the stop flag set and the frame and rate state
unchanged, and a `close()` failure is only logged, never propagated; but
`close()` is invoked once per `stop()` call that finds a `close`
attribute — so n calls invoke it n times, not at most once overall. -/
theorem stop_idempotence_amended (s : FrameProducerState) (hc cr hc2 cr2 : Bool) :
    (producer_stop s hc cr).stop_requested = true ∧
    (producer_stop (producer_stop s hc cr) hc2 cr2).stop_requested = true ∧
    (producer_stop (producer_stop s hc cr) hc2 cr2).latest_frame = s.latest_frame ∧
    (producer_stop (producer_stop s hc cr) hc2 cr2).fps = s.fps ∧
    (producer_stop s hc cr).close_calls = s.close_calls + (if hc then 1 else 0) ∧
    (producer_stop (producer_stop s hc cr) hc2 cr2).close_calls
      = s.close_calls + (if hc then 1 else 0) + (if hc2 then 1 else 0) := by
  by_cases h1 : hc <;> by_cases h2 : hc2 <;>
    simp [producer_stop, h1, h2]

/-- C7 counterexample: a `ConnectionAbortedError`-style transport fault
during a stream write is NOT caught by
`except (BrokenPipeError, ConnectionResetError)` and propagates out of
the loop, refuting "any other transport-level write failure likewise ends
the loop silently". -/
theorem stream_fault_cex :
    serve_stream_loop [([1], some WriteFault.conn_aborted)]
      = Except.error WriteFault.conn_aborted ∧
    caught_by_stream_handler WriteFault.conn_aborted = false :=
  ⟨rfl, rfl⟩

/-- C7 (amended): a write fault in the stream loop ends it silently
exactly when it is a broken pipe or a connection reset — those are the
only two exception classes the handler catches; any other transport fault
propagates out of the loop. -/
theorem stream_fault_amended (frame : List Nat)
    (rest : List (List Nat × Option WriteFault)) (e : WriteFault) (hf : frame ≠ []) :
    (caught_by_stream_handler e = true →
      serve_stream_loop ((frame, some e) :: rest) = Except.ok ()) ∧
    (caught_by_stream_handler e = false →
      serve_stream_loop ((frame, some e) :: rest) = Except.error e) ∧
    (caught_by_stream_handler e = true ↔
      (e = WriteFault.broken_pipe ∨ e = WriteFault.conn_reset)) := by
  have hne : frame.isEmpty = false := by
    rcases frame with _ | _
    · exact absurd rfl hf
    · rfl
  refine ⟨?_, ?_, ?_⟩
  · intro hcaught
    simp [serve_stream_loop, hne, hcaught]
  · intro hcaught
    simp [serve_stream_loop, hne, hcaught]
  · cases e <;> simp [caught_by_stream_handler]

/-- C7 witness: a broken pipe while writing a one-byte frame is absorbed. -/
theorem stream_fault_amended_witness :
    ([1] : List Nat) ≠ [] ∧
    ((caught_by_stream_handler WriteFault.broken_pipe = true →
       serve_stream_loop [([1], some WriteFault.broken_pipe)] = Except.ok ()) ∧
     (caught_by_stream_handler WriteFault.broken_pipe = false →
       serve_stream_loop [([1], some WriteFault.broken_pipe)]
         = Except.error WriteFault.broken_pipe) ∧
     (caught_by_stream_handler WriteFault.broken_pipe = true ↔
       (WriteFault.broken_pipe = WriteFault.broken_pipe ∨
        WriteFault.broken_pipe = WriteFault.conn_reset))) :=
  ⟨by decide, stream_fault_amended [1] [] WriteFault.broken_pipe (by decide)⟩

/-- C8: for every configured rate, including zero and negative values, the
producer's effective rate is `max(configured, 0.1)`, hence strictly
positive; the worker's per-cycle delay `1.0 / fps` is a well-defined
inverse (their product is 1), and a non-positive configured rate is
coerced to the 0.1 floor rather than failing. -/
theorem fps_floor (c : ℚ) :
    (frame_producer_init c).fps = max c (1/10) ∧
    0 < (frame_producer_init c).fps ∧
    run_delay (frame_producer_init c) * (frame_producer_init c).fps = 1 ∧
    (c ≤ 0 → (frame_producer_init c).fps = 1/10) := by
  have hpos : 0 < (frame_producer_init c).fps := by
    show (0 : ℚ) < max c (1/10)
    exact lt_of_lt_of_le (by norm_num) (le_max_right _ _)
  refine ⟨rfl, hpos, ?_, ?_⟩
  · rw [run_delay, one_div, inv_mul_cancel₀ (ne_of_gt hpos)]
  · intro hc
    show max c (1/10) = 1/10
    exact max_eq_right (hc.trans (by norm_num))

/-- C8 witness: a configured rate of 0 is floored to 0.1. -/
theorem fps_floor_witness :
    ((0 : ℚ) ≤ 0) ∧ (frame_producer_init 0).fps = 1/10 :=
  ⟨by decide, (fps_floor 0).2.2.2 (by decide)⟩

/-- C9: a request with no `Range` header returns status 200 with
`Content-Type: video/mp4`, `Content-Length` equal to the file size,
`Accept-Ranges: bytes`, `Cache-Control: no-store`, and a body
byte-identical to the entire file. -/
theorem no_range_whole_file (file : List Nat) :
    serve_video file none = Except.ok
      { status := 200
        content_type := "video/mp4"
        content_length := (file.length : Int)
        content_range := none
        accept_ranges := "bytes"
        cache_control := "no-store"
        body := file } := by
  rw [serve_video, whole_file_response, read_whole_spec]

/-- C10: a syntactically valid RFC suffix range `bytes=-<n>` does not
match the responder's pattern (its first group needs at least one digit
before the dash) and is treated as malformed: for every `n` and every
non-empty file the response carries the full byte span `[0, size-1]` —
the entire file — rather than the last `n` bytes. -/
theorem suffix_range_full_span (n : Nat) (file : List Nat) (hne : file ≠ []) :
    match_bytes_range ("bytes=-" ++ toString n) = none ∧
    serve_video file (some ("bytes=-" ++ toString n)) = Except.ok
      { status := 206
        content_type := "video/mp4"
        content_length := (file.length : Int)
        content_range := some ("bytes " ++ toString (0 : Int) ++ "-"
                                 ++ toString ((file.length : Int) - 1)
                                 ++ "/" ++ toString ((file.length : Int)))
        accept_ranges := "bytes"
        cache_control := "no-store"
        body := file } :=
  ⟨match_bytes_range_dash (toString n),
   serve_video_no_match file ("bytes=-" ++ toString n) hne
     (bytes_dash_ne_empty (toString n)) (match_bytes_range_dash (toString n))⟩

/-- C10 witness: `bytes=-4` on a three-byte file serves all three bytes. -/
theorem suffix_range_full_span_witness :
    ([5, 6, 7] : List Nat) ≠ [] ∧
    (match_bytes_range ("bytes=-" ++ toString (4 : Nat)) = none ∧
     serve_video [5, 6, 7] (some ("bytes=-" ++ toString (4 : Nat))) = Except.ok
       { status := 206
         content_type := "video/mp4"
         content_length := (([5, 6, 7] : List Nat).length : Int)
         content_range := some ("bytes " ++ toString (0 : Int) ++ "-"
                                  ++ toString ((([5, 6, 7] : List Nat).length : Int) - 1)
                                  ++ "/" ++ toString ((([5, 6, 7] : List Nat).length : Int)))
         accept_ranges := "bytes"
         cache_control := "no-store"
         body := [5, 6, 7] }) :=
  ⟨by decide, suffix_range_full_span 4 [5, 6, 7] (by decide)⟩

end PreviewServer
